import Mathlib

/-!
Shallow embedding of the metrics-dashboard routes
(`src/app/api/jira/health/route.ts` and
`src/app/api/jira/metrics/health-matrix/route.ts`, which holds both the
health-matrix handler and the single-project DORA handler).

Timestamps are modelled as integer milliseconds (the value of
`Date.getTime()`); optional JSON fields are `Option`; numbers that the
JS code manipulates as floats are modelled as exact rationals, with
`toFixed(1)` followed by `parseFloat` modelled as rounding to one
decimal, ties toward the larger value (the ECMAScript `toFixed` rule).
The network fetch is abstracted as a function argument returning
`Except FetchError SearchResult`, matching the interface the handlers
consume.
-/

namespace MetricsDash

/-- `status` object of an issue: carries the status label. -/
structure StatusField where
  name : String
deriving Repr, DecidableEq

/-- `issuetype` object of an issue: carries the issue-type label. -/
structure IssueTypeField where
  name : String
deriving Repr, DecidableEq

/-- One entry of `history.items`: a field name and the target label. -/
structure HistoryItem where
  field : String
  toString : String
deriving Repr, DecidableEq

/-- One changelog history: its timestamp (`history.created`, ms) and its items. -/
structure History where
  created : Int
  items : List HistoryItem
deriving Repr, DecidableEq

/-- `issue.changelog`: the ordered list of histories. -/
structure Changelog where
  histories : List History
deriving Repr, DecidableEq

/-- `issue.fields`: status, issue type, optional created/resolution
timestamps (ms), optional story-point estimate `customfield_10024`. -/
structure IssueFields where
  status : StatusField
  issuetype : IssueTypeField
  created : Option Int
  resolutiondate : Option Int
  customfield_10024 : Option ℚ
deriving Repr, DecidableEq

/-- An issue record as consumed by `calculateDORAMetrics`. -/
structure Issue where
  fields : IssueFields
  changelog : Option Changelog
deriving Repr, DecidableEq

/-- Milliseconds per day, the divisor `1000 * 60 * 60 * 24` of `calculateDaysBetween`. -/
def msPerDay : ℚ := 1000 * 60 * 60 * 24

/-- `calculateDaysBetween(date1, date2) = Math.ceil(Math.abs(date2.getTime() - date1.getTime()) / (1000*60*60*24))`. -/
def calculateDaysBetween (date1 date2 : Int) : Int :=
  Int.ceil ((((date2 - date1).natAbs : Int) : ℚ) / msPerDay)

/-- Inner loop of `findStatusChangeTime`: scan `history.items`; on the first
item with `field == "status"` and `toString == statusName`, return the
enclosing history's `created` timestamp. -/
def findInItems (items : List HistoryItem) (statusName : String) (created : Int) : Option Int :=
  match items with
  | [] => none
  | item :: rest =>
    if item.field == "status" && item.toString == statusName then some created
    else findInItems rest statusName created

/-- Outer loop of `findStatusChangeTime`: scan histories in order, returning
the first hit of the inner loop. -/
def findInHistories (histories : List History) (statusName : String) : Option Int :=
  match histories with
  | [] => none
  | h :: rest =>
    match findInItems h.items statusName h.created with
    | some t => some t
    | none => findInHistories rest statusName

/-- `findStatusChangeTime(changelog, statusName)`: `null` when the changelog
(or its histories) is absent, otherwise the nested scan. -/
def findStatusChangeTime (changelog : Option Changelog) (statusName : String) : Option Int :=
  match changelog with
  | none => none
  | some cl => findInHistories cl.histories statusName

/-- Metrics result object returned by `calculateDORAMetrics`. -/
structure Metrics where
  leadTime : ℚ
  deploymentFrequency : ℚ
  changeFailureRate : ℚ
  recoveryTime : ℚ
  velocity : ℚ
deriving Repr, DecidableEq

/-- `parseFloat(q.toFixed(1))`: round to one decimal, ties toward the larger
value (ECMAScript `toFixed` picks the larger candidate on a tie). -/
def round1 (q : ℚ) : ℚ :=
  (Int.floor (q * 10 + 1 / 2) : ℚ) / 10

/-- The released-issue filter: `i.fields.status.name === 'Released' && i.fields.resolutiondate`
(JS truthiness of the resolution timestamp = presence). -/
def isReleased (i : Issue) : Bool :=
  i.fields.status.name == "Released" && i.fields.resolutiondate.isSome

/-- Per-issue lead-time contribution of the code's `forEach` body: the value
added to `totalLeadTime` when `devStartTime` is found, `none` otherwise.
`releaseTime = new Date(issue.fields.resolutiondate)`; on the released
issues the loop runs over, that field is always present, so the default
value of `getD` is never consulted. -/
def codeLeadDays (issue : Issue) : Option Int :=
  (findStatusChangeTime issue.changelog "In Development").map
    (fun devStartTime => calculateDaysBetween devStartTime (issue.fields.resolutiondate.getD 0))

/-- Per-bug recovery contribution of the code's `forEach` body: present only
when `bug.fields.created && bug.fields.resolutiondate`, in which case it is
`calculateDaysBetween(created, resolutiondate) * 24` hours. -/
def codeRecoveryHours (bug : Issue) : Option Int :=
  match bug.fields.created, bug.fields.resolutiondate with
  | some c, some r => some (calculateDaysBetween c r * 24)
  | _, _ => none

/-- Accumulator step of the code's total/count `forEach` loops: add the
contribution and bump the counter when present, leave the accumulator
unchanged otherwise. -/
def accumStep (f : Issue → Option Int) (acc : Int × Nat) (issue : Issue) : Int × Nat :=
  match f issue with
  | some d => (acc.1 + d, acc.2 + 1)
  | none => acc

/-- `calculateDORAMetrics`, clause by clause from the source:
released filter; lead-time total/count loop; deployment frequency with the
fixed `weeksPassed = 4`; bug and released-bug filters (`releasedBugs`
checks only the status name); failure rate guarded by
`releasedIssues.length > 0`; recovery total/count loop over `releasedBugs`;
velocity as a `reduce` over all issues with `customfield_10024 || 0`. -/
def calculateDORAMetrics (issues : List Issue) : Metrics :=
  let releasedIssues := issues.filter isReleased
  let lead := releasedIssues.foldl (accumStep codeLeadDays) (0, 0)
  let avgLeadTime : ℚ := if lead.2 > 0 then round1 ((lead.1 : ℚ) / (lead.2 : ℚ)) else 0
  let weeksPassed : ℚ := 4
  let deploymentFrequency : ℚ := round1 ((releasedIssues.length : ℚ) / weeksPassed)
  let bugs := issues.filter (fun i => i.fields.issuetype.name == "Bug")
  let releasedBugs := bugs.filter (fun b => b.fields.status.name == "Released")
  let failureRate : ℚ :=
    if releasedIssues.length > 0 then
      round1 (((releasedBugs.length : ℚ) / (releasedIssues.length : ℚ)) * 100)
    else 0
  let recovery := releasedBugs.foldl (accumStep codeRecoveryHours) (0, 0)
  let avgRecoveryTime : ℚ :=
    if recovery.2 > 0 then round1 ((recovery.1 : ℚ) / (recovery.2 : ℚ)) else 0
  let storyPoints : ℚ :=
    issues.foldl (fun sum issue => sum + issue.fields.customfield_10024.getD 0) 0
  { leadTime := avgLeadTime
    deploymentFrequency := deploymentFrequency
    changeFailureRate := failureRate
    recoveryTime := avgRecoveryTime
    velocity := storyPoints }

/-! ## Spec-side formulations

These definitions restate the metric clauses in the specification's own
vocabulary (first matching history via `find?`/`any`, averages as
sum-over-length of an explicit list of qualifying values), to be compared
with the accumulator-style code above. -/

/-- Spec-side scan: the first history (in the given order) containing a
status-transition item (`field = "status"`) whose target label is
`statusName`; its `created` timestamp is the result. -/
def firstTransitionTime (changelog : Option Changelog) (statusName : String) : Option Int :=
  match changelog with
  | none => none
  | some cl =>
    (cl.histories.find? (fun h =>
      h.items.any (fun item => item.field == "status" && item.toString == statusName))).map
      (fun h => h.created)

/-- Spec-side per-issue lead time: ceiling of the absolute difference, in
days, between the resolution timestamp and the first "In Development"
transition; `none` when the issue lacks either. -/
def specLeadDays (issue : Issue) : Option Int :=
  match firstTransitionTime issue.changelog "In Development", issue.fields.resolutiondate with
  | some dev, some res => some (Int.ceil ((((res - dev).natAbs : Int) : ℚ) / msPerDay))
  | _, _ => none

/-- Spec-side per-bug recovery time in hours:
`ceil(|resolution - created| / 1 day) * 24` when both timestamps are
present, `none` otherwise. -/
def specRecoveryHours (bug : Issue) : Option Int :=
  match bug.fields.created, bug.fields.resolutiondate with
  | some c, some r => some (Int.ceil ((((r - c).natAbs : Int) : ℚ) / msPerDay) * 24)
  | _, _ => none

/-- Spec-side average: arithmetic mean of the listed values rounded to one
decimal, `0` when the list is empty. -/
def specAvg1 (xs : List Int) : ℚ :=
  if xs.length > 0 then round1 ((xs.sum : ℚ) / (xs.length : ℚ)) else 0

/-- Spec-side lead time: mean over released issues that have an
"In Development" transition (others excluded), one decimal, `0` if none. -/
def leadTimeSpec (issues : List Issue) : ℚ :=
  specAvg1 ((issues.filter isReleased).filterMap specLeadDays)

/-- Spec-side recovery time: mean over released Bugs (released in the full
sense: status "Released" and resolution present) that carry both
timestamps, one decimal, `0` if none. -/
def recoveryTimeSpec (issues : List Issue) : ℚ :=
  specAvg1 ((issues.filter
    (fun i => i.fields.issuetype.name == "Bug" && isReleased i)).filterMap specRecoveryHours)

/-- Spec-side deployment frequency: count of released issues divided by the
fixed constant 4, one decimal. -/
def deploymentFrequencySpec (issues : List Issue) : ℚ :=
  round1 (((issues.filter isReleased).length : ℚ) / 4)

/-- Change-failure rate as claim C1 states it: numerator counts Bug-type
issues that are *additionally released* (status "Released" AND a
resolution timestamp), denominator counts released issues; `0` when no
issue is released. -/
def changeFailureRateClaimC1 (issues : List Issue) : ℚ :=
  let released := issues.filter isReleased
  let releasedBugs := issues.filter (fun i => i.fields.issuetype.name == "Bug" && isReleased i)
  if released.length > 0 then
    round1 (100 * (releasedBugs.length : ℚ) / (released.length : ℚ))
  else 0

/-- Change-failure rate as the code computes it: the numerator counts
Bug-type issues whose status label is "Released", with no requirement of
a resolution timestamp; the denominator counts fully released issues. -/
def changeFailureRateSpec (issues : List Issue) : ℚ :=
  let released := issues.filter isReleased
  let statusReleasedBugs := issues.filter
    (fun i => i.fields.issuetype.name == "Bug" && i.fields.status.name == "Released")
  if released.length > 0 then
    round1 (((statusReleasedBugs.length : ℚ) / (released.length : ℚ)) * 100)
  else 0

/-- Spec-side velocity: sum of the story-point field over all issues,
absent values as 0. -/
def velocitySpec (issues : List Issue) : ℚ :=
  (issues.map (fun i => i.fields.customfield_10024.getD 0)).sum

/-! ## Request handlers -/

/-- The error thrown by `fetchJiraIssues` on a non-ok upstream response,
reduced to the `message` string the catch blocks serialize as `details`. -/
structure FetchError where
  message : String
deriving Repr, DecidableEq

/-- Body of a successful upstream search: `issues` and the reported `total`. -/
structure SearchResult where
  issues : List Issue
  total : Nat
deriving Repr, DecidableEq

/-- The six project keys of the health-matrix handler. -/
def hmProjects : List String := ["DAI", "DGDPO", "DMM", "DE", "VEH", "CAT"]

/-- The per-project JQL of the health-matrix handler. -/
def hmJql (project : String) : String :=
  "project = " ++ project ++ " AND created >= -30d"

/-- Response of the health-matrix handler: either the per-project mapping
(association list, insertion order = loop order) or the failure envelope
`{ success: false, error, details }` with its HTTP status. -/
inductive HMResponse where
  | ok (data : List (String × Metrics))
  | err (status : Nat) (error : String) (details : String)
deriving Repr, DecidableEq

/-- The sequential per-project loop: fetch, compute, record; a fetch error
aborts immediately into the failure envelope with the thrown message. -/
def healthMatrixLoop (fetch : String → Except FetchError SearchResult) :
    List String → HMResponse
  | [] => .ok []
  | p :: rest =>
    match fetch (hmJql p) with
    | .error e => .err 500 "Failed to fetch health matrix" e.message
    | .ok data =>
      match healthMatrixLoop fetch rest with
      | .ok tail => .ok ((p, calculateDORAMetrics data.issues) :: tail)
      | .err s m d => .err s m d

/-- `GET` of the health-matrix route, with the fetch collaborator abstracted. -/
def healthMatrixGET (fetch : String → Except FetchError SearchResult) : HMResponse :=
  healthMatrixLoop fetch hmProjects

/-- Project keys present in a success response; `none` for the failure
envelope (which carries no per-project data at all). -/
def responseKeys : HMResponse → Option (List String)
  | .ok data => some (data.map Prod.fst)
  | .err _ _ _ => none

/-- Whether a response is the health-matrix failure envelope:
status 500 with the generic error string. -/
def isFailEnvelope (resp : HMResponse) : Bool :=
  match resp with
  | .err s e _ => s == 500 && e == "Failed to fetch health matrix"
  | .ok _ => false

/-- Whether the abstract fetch succeeded. -/
def fetchOk {α : Type} (r : Except FetchError α) : Bool :=
  match r with
  | .ok _ => true
  | .error _ => false

/-- JS truthiness of an optional string: present and non-empty. -/
def truthy : Option String → Bool
  | none => false
  | some s => !(s == "")

/-- Configuration consumed by the health route: the three environment
variables, `none` when unset. -/
structure HealthConfig where
  jiraEmail : Option String
  jiraApiToken : Option String
  jiraDomain : Option String
deriving Repr, DecidableEq

/-- Body returned by the health route. -/
structure HealthResponse where
  status : String
  message : String
  jiraConnected : Bool
  domain : String
deriving Repr, DecidableEq

/-- `GET` of the health route: no fetch is involved;
`jiraConnected = !!(JIRA_EMAIL && JIRA_API_TOKEN)` and
`domain = JIRA_DOMAIN || 'Not configured'`. -/
def healthGET (cfg : HealthConfig) : HealthResponse :=
  { status := "ok"
    message := "DMINT Dashboard API is running"
    jiraConnected := truthy cfg.jiraEmail && truthy cfg.jiraApiToken
    domain := if truthy cfg.jiraDomain then cfg.jiraDomain.getD "" else "Not configured" }

/-- `searchParams.get('project') || 'DAI'`. -/
def doraProject (project : Option String) : String :=
  if truthy project then project.getD "" else "DAI"

/-- JQL built by the single-project handler: project filter, then
`AND created >= "<startDate>"` and `AND created <= "<endDate>"` for
whichever bounds are present (truthy). -/
def doraJql (project startDate endDate : Option String) : String :=
  let jql := "project = " ++ doraProject project
  let jql := if truthy startDate then jql ++ " AND created >= \"" ++ startDate.getD "" ++ "\"" else jql
  if truthy endDate then jql ++ " AND created <= \"" ++ endDate.getD "" ++ "\"" else jql

/-- Spec-side query of the single-project handler: the project filter plus
exactly those optional date bounds that are present, each appended as an
inclusive comparison. -/
def doraJqlSpec (project startDate endDate : Option String) : String :=
  "project = " ++ doraProject project
    ++ (if truthy startDate then " AND created >= \"" ++ startDate.getD "" ++ "\"" else "")
    ++ (if truthy endDate then " AND created <= \"" ++ endDate.getD "" ++ "\"" else "")

/-- Response of the single-project handler: success carries the resolved
project key, the upstream-reported total and the metrics; failure is the
envelope with its HTTP status. -/
inductive DoraResponse where
  | ok (project : String) (totalIssues : Nat) (metrics : Metrics)
  | err (status : Nat) (error : String) (details : String)
deriving Repr, DecidableEq

/-- `GET` of the single-project DORA route, fetch abstracted. -/
def doraGET (project startDate endDate : Option String)
    (fetch : String → Except FetchError SearchResult) : DoraResponse :=
  match fetch (doraJql project startDate endDate) with
  | .error e => .err 500 "Failed to fetch DORA metrics" e.message
  | .ok data => .ok (doraProject project) data.total (calculateDORAMetrics data.issues)

/-! ## Equivalence lemmas between the code-side and spec-side formulations -/

lemma findInItems_eq (s : String) (c : Int) (items : List HistoryItem) :
    findInItems items s c =
      if items.any (fun item => item.field == "status" && item.toString == s) then some c
      else none := by
  induction items with
  | nil => rfl
  | cons it rest ih =>
    unfold findInItems
    by_cases hp : (it.field == "status" && it.toString == s) = true
    · simp [hp]
    · simp only [Bool.not_eq_true] at hp
      simp [hp, ih]

lemma findInHistories_eq (s : String) (hs : List History) :
    findInHistories hs s =
      (hs.find? (fun h =>
        h.items.any (fun item => item.field == "status" && item.toString == s))).map
        (fun h => h.created) := by
  induction hs with
  | nil => rfl
  | cons h t ih =>
    unfold findInHistories
    rw [findInItems_eq]
    by_cases hp : (h.items.any fun item => item.field == "status" && item.toString == s) = true
    · simp [hp, List.find?_cons_of_pos]
    · simp only [Bool.not_eq_true] at hp
      simp [hp, List.find?_cons_of_neg, ih]

lemma findStatusChangeTime_eq (cl : Option Changelog) (s : String) :
    findStatusChangeTime cl s = firstTransitionTime cl s := by
  cases cl with
  | none => rfl
  | some c => simpa [findStatusChangeTime, firstTransitionTime] using findInHistories_eq s c.histories

lemma foldl_accumStep (f : Issue → Option Int) (l : List Issue) :
    ∀ (a : Int) (n : Nat),
      l.foldl (accumStep f) (a, n) = (a + (l.filterMap f).sum, n + (l.filterMap f).length) := by
  induction l with
  | nil => intro a n; simp
  | cons i t ih =>
    intro a n
    cases hf : f i with
    | none =>
      simp only [List.foldl_cons, accumStep, hf, List.filterMap_cons]
      exact ih a n
    | some d =>
      simp only [List.foldl_cons, accumStep, hf, List.filterMap_cons]
      rw [ih (a + d) (n + 1)]
      refine Prod.ext ?_ ?_
      · simp [add_assoc]
      · simp [Nat.add_comm, Nat.add_assoc, Nat.add_left_comm]

lemma codeLeadDays_eq_spec (i : Issue) (h : isReleased i = true) :
    codeLeadDays i = specLeadDays i := by
  unfold codeLeadDays specLeadDays
  rw [← findStatusChangeTime_eq]
  cases hres : i.fields.resolutiondate with
  | none => unfold isReleased at h; simp [hres] at h
  | some r =>
    cases hdev : findStatusChangeTime i.changelog "In Development" with
    | none => simp [hdev]
    | some dev => simp [hdev, hres, calculateDaysBetween]

lemma codeRecoveryHours_eq_spec (b : Issue) : codeRecoveryHours b = specRecoveryHours b := by
  unfold codeRecoveryHours specRecoveryHours calculateDaysBetween
  rfl

lemma bugFilter_merge (issues : List Issue) :
    (issues.filter (fun i => i.fields.issuetype.name == "Bug")).filter
        (fun b => b.fields.status.name == "Released") =
      issues.filter
        (fun i => i.fields.issuetype.name == "Bug" && i.fields.status.name == "Released") := by
  rw [List.filter_filter]
  exact List.filter_congr (fun a _ => Bool.and_comm _ _)

lemma recovery_filterMap_eq (issues : List Issue) :
    (issues.filter
        (fun i => i.fields.issuetype.name == "Bug" &&
          i.fields.status.name == "Released")).filterMap codeRecoveryHours =
      (issues.filter
        (fun i => i.fields.issuetype.name == "Bug" && isReleased i)).filterMap
        specRecoveryHours := by
  induction issues with
  | nil => rfl
  | cons i t ih =>
    simp only [List.filter_cons]
    by_cases hb : (i.fields.issuetype.name == "Bug") = true
    · by_cases hs : (i.fields.status.name == "Released") = true
      · cases hres : i.fields.resolutiondate with
        | none =>
          have hcode : codeRecoveryHours i = none := by
            unfold codeRecoveryHours
            cases i.fields.created <;> simp [hres]
          have hrel : isReleased i = false := by simp [isReleased, hres]
          simp [hb, hs, hrel, List.filterMap_cons, hcode, ih]
        | some r =>
          have hrel : isReleased i = true := by simp [isReleased, hres, hs]
          have hcs := codeRecoveryHours_eq_spec i
          cases hcode : codeRecoveryHours i with
          | none =>
            simp [hb, hs, hrel, List.filterMap_cons, hcode, ← hcs, ih]
          | some v =>
            simp [hb, hs, hrel, List.filterMap_cons, hcode, ← hcs, ih]
      · simp only [Bool.not_eq_true] at hs
        have hrel : isReleased i = false := by simp [isReleased, hs]
        simp [hb, hs, hrel, ih]
    · simp only [Bool.not_eq_true] at hb
      simp [hb, ih]

lemma foldl_velocity (l : List Issue) :
    ∀ a : ℚ, l.foldl (fun sum issue => sum + issue.fields.customfield_10024.getD 0) a =
      a + (l.map (fun i => i.fields.customfield_10024.getD 0)).sum := by
  induction l with
  | nil => intro a; simp
  | cons i t ih =>
    intro a
    simp [List.foldl_cons, ih (a + i.fields.customfield_10024.getD 0), add_assoc]

lemma leadTime_def (issues : List Issue) :
    (calculateDORAMetrics issues).leadTime =
      (if ((issues.filter isReleased).foldl (accumStep codeLeadDays) (0, 0)).2 > 0 then
        round1 (((((issues.filter isReleased).foldl (accumStep codeLeadDays) (0, 0)).1 : Int) : ℚ) /
          ((((issues.filter isReleased).foldl (accumStep codeLeadDays) (0, 0)).2 : Nat) : ℚ))
      else 0) := rfl

lemma leadTime_eq (issues : List Issue) :
    (calculateDORAMetrics issues).leadTime = leadTimeSpec issues := by
  have hcongr : (issues.filter isReleased).filterMap codeLeadDays =
      (issues.filter isReleased).filterMap specLeadDays :=
    List.filterMap_congr (fun i hi => codeLeadDays_eq_spec i (List.mem_filter.mp hi).2)
  rw [leadTime_def, foldl_accumStep, hcongr]
  simp only [zero_add, Nat.zero_add]
  rfl

lemma deploymentFrequency_eq (issues : List Issue) :
    (calculateDORAMetrics issues).deploymentFrequency = deploymentFrequencySpec issues := rfl

lemma changeFailureRate_def (issues : List Issue) :
    (calculateDORAMetrics issues).changeFailureRate =
      (if (issues.filter isReleased).length > 0 then
        round1 (((((issues.filter (fun i => i.fields.issuetype.name == "Bug")).filter
            (fun b => b.fields.status.name == "Released")).length : ℚ) /
          ((issues.filter isReleased).length : ℚ)) * 100)
      else 0) := rfl

lemma changeFailureRate_eq (issues : List Issue) :
    (calculateDORAMetrics issues).changeFailureRate = changeFailureRateSpec issues := by
  rw [changeFailureRate_def, bugFilter_merge]
  rfl

lemma recoveryTime_def (issues : List Issue) :
    (calculateDORAMetrics issues).recoveryTime =
      (if (((issues.filter (fun i => i.fields.issuetype.name == "Bug")).filter
            (fun b => b.fields.status.name == "Released")).foldl
            (accumStep codeRecoveryHours) (0, 0)).2 > 0 then
        round1 ((((((issues.filter (fun i => i.fields.issuetype.name == "Bug")).filter
            (fun b => b.fields.status.name == "Released")).foldl
            (accumStep codeRecoveryHours) (0, 0)).1 : Int) : ℚ) /
          (((((issues.filter (fun i => i.fields.issuetype.name == "Bug")).filter
            (fun b => b.fields.status.name == "Released")).foldl
            (accumStep codeRecoveryHours) (0, 0)).2 : Nat) : ℚ))
      else 0) := rfl

lemma recoveryTime_eq (issues : List Issue) :
    (calculateDORAMetrics issues).recoveryTime = recoveryTimeSpec issues := by
  rw [recoveryTime_def, bugFilter_merge, foldl_accumStep, recovery_filterMap_eq]
  simp only [zero_add, Nat.zero_add]
  rfl

lemma velocity_def (issues : List Issue) :
    (calculateDORAMetrics issues).velocity =
      issues.foldl (fun sum issue => sum + issue.fields.customfield_10024.getD 0) 0 := rfl

lemma velocity_eq (issues : List Issue) :
    (calculateDORAMetrics issues).velocity = velocitySpec issues := by
  rw [velocity_def, foldl_velocity, zero_add]
  rfl

/-! ## Sign lemmas -/

lemma msPerDay_pos : 0 < msPerDay := by norm_num [msPerDay]

lemma days_ratio_nonneg (x : Int) : (0 : ℚ) ≤ ((x.natAbs : Int) : ℚ) / msPerDay := by
  apply div_nonneg
  · have h1 : (0 : ℤ) ≤ (x.natAbs : Int) := Int.ofNat_nonneg x.natAbs
    exact_mod_cast h1
  · exact le_of_lt msPerDay_pos

lemma round1_nonneg {q : ℚ} (h : 0 ≤ q) : 0 ≤ round1 q := by
  unfold round1
  have h2 : (0 : ℚ) ≤ q * 10 + 1 / 2 := by linarith
  have h3 : (0 : ℤ) ≤ Int.floor (q * 10 + 1 / 2) := Int.floor_nonneg.mpr h2
  have h4 : (0 : ℚ) ≤ (Int.floor (q * 10 + 1 / 2) : ℚ) := by exact_mod_cast h3
  linarith

lemma specLeadDays_nonneg (i : Issue) (d : Int) (h : specLeadDays i = some d) : 0 ≤ d := by
  unfold specLeadDays at h
  cases hdev : firstTransitionTime i.changelog "In Development" with
  | none => rw [hdev] at h; cases i.fields.resolutiondate <;> simp at h
  | some dev =>
    cases hres : i.fields.resolutiondate with
    | none => rw [hdev, hres] at h; simp at h
    | some r =>
      rw [hdev, hres] at h
      simp only [Option.some.injEq] at h
      subst h
      exact Int.ceil_nonneg (days_ratio_nonneg (r - dev))

lemma specRecoveryHours_nonneg (b : Issue) (d : Int) (h : specRecoveryHours b = some d) :
    0 ≤ d := by
  unfold specRecoveryHours at h
  cases hc : b.fields.created with
  | none => rw [hc] at h; simp at h
  | some c =>
    cases hres : b.fields.resolutiondate with
    | none => rw [hc, hres] at h; simp at h
    | some r =>
      rw [hc, hres] at h
      simp only [Option.some.injEq] at h
      subst h
      have h2 : (0 : ℤ) ≤ Int.ceil ((((r - c).natAbs : Int) : ℚ) / msPerDay) :=
        Int.ceil_nonneg (days_ratio_nonneg (r - c))
      omega

lemma specAvg1_nonneg (xs : List Int) (h : ∀ x ∈ xs, 0 ≤ x) : 0 ≤ specAvg1 xs := by
  unfold specAvg1
  split
  · apply round1_nonneg
    apply div_nonneg
    · exact_mod_cast List.sum_nonneg h
    · positivity
  · exact le_refl 0

/-! ## Handler lemmas -/

lemma loop_keys (fetch : String → Except FetchError SearchResult) :
    ∀ ps : List String, (∀ p ∈ ps, fetchOk (fetch (hmJql p)) = true) →
      responseKeys (healthMatrixLoop fetch ps) = some ps := by
  intro ps
  induction ps with
  | nil => intro _; rfl
  | cons q t ih =>
    intro h
    have hq := h q (List.mem_cons_self q t)
    unfold healthMatrixLoop
    cases hfq : fetch (hmJql q) with
    | error e => rw [hfq] at hq; simp [fetchOk] at hq
    | ok data =>
      have ht := ih (fun p hp => h p (List.mem_cons_of_mem q hp))
      cases hloop : healthMatrixLoop fetch t with
      | ok tail =>
        rw [hloop] at ht
        simp only [responseKeys, Option.some.injEq] at ht
        simp [responseKeys, ht]
      | err s m d => rw [hloop] at ht; simp [responseKeys] at ht

lemma loop_err (fetch : String → Except FetchError SearchResult) :
    ∀ ps : List String, ∀ p ∈ ps, fetchOk (fetch (hmJql p)) = false →
      isFailEnvelope (healthMatrixLoop fetch ps) = true := by
  intro ps
  induction ps with
  | nil => intro p hp; simp at hp
  | cons q t ih =>
    intro p hp hfail
    unfold healthMatrixLoop
    cases hfq : fetch (hmJql q) with
    | error e => simp [isFailEnvelope]
    | ok data =>
      rcases List.mem_cons.mp hp with rfl | hmem
      · rw [hfq] at hfail; simp [fetchOk] at hfail
      · have henv := ih p hmem hfail
        cases hloop : healthMatrixLoop fetch t with
        | ok tail => rw [hloop] at henv; simp [isFailEnvelope] at henv
        | err s m d => rw [hloop] at henv; exact henv

/-! ## Concrete inputs used by the claims -/

/-- A Bug with status "Released" and a resolution timestamp. -/
def bugReleasedResolved : Issue :=
  { fields := { status := { name := "Released" }, issuetype := { name := "Bug" },
                created := some 0, resolutiondate := some 0, customfield_10024 := none },
    changelog := none }

/-- A Bug with status "Released" but no resolution timestamp. -/
def bugReleasedUnresolved : Issue :=
  { fields := { status := { name := "Released" }, issuetype := { name := "Bug" },
                created := some 0, resolutiondate := none, customfield_10024 := none },
    changelog := none }

/-- Input with one resolved released Bug and one unresolved released Bug. -/
def cfrExample : List Issue := [bugReleasedResolved, bugReleasedUnresolved]

/-- The status-transition item "status → In Development". -/
def devItem : HistoryItem := { field := "status", toString := "In Development" }

/-- A changelog history at day 2 (ms) containing the dev-start transition. -/
def devHistory : History := { created := 2 * 86400000, items := [devItem] }

/-- A released issue resolved at day 10 with an "In Development" transition
at day 2 (days as multiples of 86400000 ms). -/
def leadExample : Issue :=
  { fields := { status := { name := "Released" }, issuetype := { name := "Task" },
                created := none, resolutiondate := some (10 * 86400000),
                customfield_10024 := none },
    changelog := some { histories := [devHistory] } }

/-- A fetch collaborator that always succeeds with an empty page. -/
def fetchEmptyOk : String → Except FetchError SearchResult :=
  fun _ => Except.ok { issues := [], total := 0 }

/-- A fetch collaborator that always fails. -/
def fetchBoom : String → Except FetchError SearchResult :=
  fun _ => Except.error { message := "JIRA API error: 500" }

/-- A fetch collaborator returning an empty page with total 7. -/
def fetchSeven : String → Except FetchError SearchResult :=
  fun _ => Except.ok { issues := [], total := 7 }

/-! ## Claims -/

/-- C1, counterexample: on the input with one resolved released Bug and one
unresolved released Bug, the computed changeFailureRate (200) differs from
the claim's formula, whose numerator requires released Bugs to carry a
resolution timestamp (yielding 100). -/
theorem claim_C1_cex :
    (calculateDORAMetrics cfrExample).changeFailureRate ≠ changeFailureRateClaimC1 cfrExample := by
  rw [changeFailureRate_eq]
  simp [changeFailureRateSpec, changeFailureRateClaimC1, cfrExample, bugReleasedResolved,
    bugReleasedUnresolved, isReleased, round1]
  norm_num

/-- C1, amended: the computed changeFailureRate is 0 when no released issue
exists, and otherwise round-to-one-decimal of
100 * (number of Bug-type issues whose status label is "Released",
with no resolution-timestamp requirement) / (number of released issues). -/
theorem claim_C1 :
    ∀ issues : List Issue,
      (calculateDORAMetrics issues).changeFailureRate = changeFailureRateSpec issues :=
  changeFailureRate_eq

/-- C2: the change-failure-rate numerator is filtered only on status name
"Released" (no resolution timestamp required) while the denominator
requires one, so the input with one resolved and one unresolved released
Bug yields changeFailureRate 200, strictly greater than 100. -/
theorem claim_C2 :
    (∀ issues : List Issue,
      (calculateDORAMetrics issues).changeFailureRate = changeFailureRateSpec issues)
    ∧ (calculateDORAMetrics cfrExample).changeFailureRate = 200
    ∧ 100 < (calculateDORAMetrics cfrExample).changeFailureRate := by
  have h200 : (calculateDORAMetrics cfrExample).changeFailureRate = 200 := by
    rw [changeFailureRate_eq]
    simp [changeFailureRateSpec, cfrExample, bugReleasedResolved, bugReleasedUnresolved,
      isReleased, round1]
    norm_num
  refine ⟨changeFailureRate_eq, h200, ?_⟩
  rw [h200]
  norm_num

/-- C3: for every input, leadTime equals the mean (one decimal, 0 if empty)
over released issues of ceil of the absolute day difference between the
resolution timestamp and the first "In Development" status transition,
issues without such a transition excluded; the single-issue scenario
(resolved day 10, transition day 2) yields 8. -/
theorem claim_C3 :
    (∀ issues : List Issue, (calculateDORAMetrics issues).leadTime = leadTimeSpec issues)
    ∧ (calculateDORAMetrics [leadExample]).leadTime = 8 := by
  refine ⟨leadTime_eq, ?_⟩
  rw [leadTime_eq]
  simp [leadTimeSpec, specAvg1, leadExample, isReleased, specLeadDays, firstTransitionTime,
    devHistory, devItem, round1, msPerDay]
  norm_num

/-- C4: recoveryTime equals the mean (one decimal) over released Bugs
carrying both a creation and a resolution timestamp of
ceil of the absolute day difference times 24 hours, and is exactly 0 when
no bug qualifies. -/
theorem claim_C4 :
    (∀ issues : List Issue,
      (calculateDORAMetrics issues).recoveryTime = recoveryTimeSpec issues)
    ∧ (∀ issues : List Issue,
        (issues.filter
          (fun i => i.fields.issuetype.name == "Bug" && isReleased i)).filterMap
          specRecoveryHours = [] →
        (calculateDORAMetrics issues).recoveryTime = 0) := by
  refine ⟨recoveryTime_eq, ?_⟩
  intro issues h
  rw [recoveryTime_eq]
  unfold recoveryTimeSpec
  rw [h]
  rfl

/-- C4 witness: on the empty issue list no bug qualifies and recoveryTime is 0. -/
theorem claim_C4_witness : (calculateDORAMetrics []).recoveryTime = 0 :=
  claim_C4.2 [] rfl

/-- C5: deploymentFrequency is the count of released issues (status
"Released" with a resolution timestamp) divided by the fixed constant 4,
rounded to one decimal; the divisor is independent of the input. -/
theorem claim_C5 :
    ∀ issues : List Issue,
      (calculateDORAMetrics issues).deploymentFrequency = deploymentFrequencySpec issues :=
  deploymentFrequency_eq

/-- C6: velocity is the sum of the story-point field over all input issues,
absent values as 0; the empty list yields 0. -/
theorem claim_C6 :
    (∀ issues : List Issue, (calculateDORAMetrics issues).velocity = velocitySpec issues)
    ∧ (calculateDORAMetrics []).velocity = 0 := by
  refine ⟨velocity_eq, ?_⟩
  rw [velocity_eq]
  rfl

/-- C7: if every one of the six sequential per-project fetches succeeds, the
health-matrix response carries exactly the six project keys DAI, DGDPO,
DMM, DE, VEH, CAT; if any one fetch fails, the response is the
status-500 failure envelope, which carries no per-project data. -/
theorem claim_C7 :
    ∀ fetch : String → Except FetchError SearchResult,
      ((∀ p ∈ hmProjects, fetchOk (fetch (hmJql p)) = true) →
        responseKeys (healthMatrixGET fetch) = some hmProjects)
      ∧ (∀ p ∈ hmProjects, fetchOk (fetch (hmJql p)) = false →
          isFailEnvelope (healthMatrixGET fetch) = true)
      ∧ (∀ resp : HMResponse, isFailEnvelope resp = true → responseKeys resp = none) := by
  intro fetch
  refine ⟨fun h => loop_keys fetch hmProjects h,
          fun p hp hf => loop_err fetch hmProjects p hp hf, ?_⟩
  intro resp h
  cases resp with
  | ok data => simp [isFailEnvelope] at h
  | err s m d => rfl

/-- C7 witness: with an always-succeeding fetch all six keys are present;
with an always-failing fetch the failure envelope is returned. -/
theorem claim_C7_witness :
    responseKeys (healthMatrixGET fetchEmptyOk) = some hmProjects
    ∧ isFailEnvelope (healthMatrixGET fetchBoom) = true :=
  ⟨(claim_C7 fetchEmptyOk).1 (fun p hp => rfl),
   (claim_C7 fetchBoom).2.1 "DAI" (by simp [hmProjects]) rfl⟩

/-- C8: the health endpoint is a pure function of the configuration (no
fetch is involved); jiraConnected is true iff both the identity email and
the API token are present (truthy), and an unset domain is reported as
the literal "Not configured". -/
theorem claim_C8 :
    ∀ cfg : HealthConfig,
      ((healthGET cfg).jiraConnected = true ↔
        (truthy cfg.jiraEmail = true ∧ truthy cfg.jiraApiToken = true))
      ∧ (cfg.jiraDomain = none → (healthGET cfg).domain = "Not configured") := by
  intro cfg
  constructor
  · simp [healthGET]
  · intro h
    simp [healthGET, h, truthy]

/-- Configuration with both credentials set and the domain unset. -/
def cfgCredsOnly : HealthConfig :=
  { jiraEmail := some "user", jiraApiToken := some "token", jiraDomain := none }

/-- C8 witness: with both credentials set and the domain unset, the response
reports jiraConnected true and domain "Not configured". -/
theorem claim_C8_witness :
    (healthGET cfgCredsOnly).jiraConnected = true
    ∧ (healthGET cfgCredsOnly).domain = "Not configured" :=
  ⟨(claim_C8 cfgCredsOnly).1.mpr ⟨rfl, rfl⟩, (claim_C8 cfgCredsOnly).2 rfl⟩

/-- C9: the single-project handler defaults the project key to "DAI" when
the parameter is omitted; its query is the project filter plus exactly the
present date bounds, each as an inclusive comparison; on fetch success the
response carries the upstream-reported total alongside the metrics. -/
theorem claim_C9 :
    (doraProject none = "DAI")
    ∧ (∀ p s e : Option String, doraJql p s e = doraJqlSpec p s e)
    ∧ (∀ (p s e : Option String) (fetch : String → Except FetchError SearchResult)
        (data : SearchResult), fetch (doraJql p s e) = Except.ok data →
        doraGET p s e fetch =
          DoraResponse.ok (doraProject p) data.total (calculateDORAMetrics data.issues)) := by
  refine ⟨rfl, ?_, ?_⟩
  · intro p s e
    unfold doraJql doraJqlSpec
    by_cases hs : truthy s = true
    · by_cases he : truthy e = true
      · simp [hs, he, String.append_assoc]
        rw [← String.append_assoc ("\"" : String) " AND created <= \"" (e.getD "" ++ "\"")]
        rfl
      · simp only [Bool.not_eq_true] at he
        simp [hs, he, String.append_assoc]
    · simp only [Bool.not_eq_true] at hs
      by_cases he : truthy e = true
      · simp [hs, he, String.append_assoc]
      · simp only [Bool.not_eq_true] at he
        simp [hs, he]
  · intro p s e fetch data h
    unfold doraGET
    rw [h]

/-- C9 witness: project "DMM" with only a start date, against a fetch
returning an empty page with total 7. -/
theorem claim_C9_witness :
    doraGET (some "DMM") (some "2024-01-01") none fetchSeven =
      DoraResponse.ok (doraProject (some "DMM")) 7 (calculateDORAMetrics []) :=
  claim_C9.2.2 (some "DMM") (some "2024-01-01") none fetchSeven
    { issues := [], total := 7 } rfl

/-- C10: on every input, each of leadTime, deploymentFrequency,
changeFailureRate and recoveryTime is a non-negative rational (the
embedding is exact rational arithmetic, so no NaN or infinity exists; each
division is guarded by a strictly positive count). -/
theorem claim_C10 :
    ∀ issues : List Issue,
      0 ≤ (calculateDORAMetrics issues).leadTime
      ∧ 0 ≤ (calculateDORAMetrics issues).deploymentFrequency
      ∧ 0 ≤ (calculateDORAMetrics issues).changeFailureRate
      ∧ 0 ≤ (calculateDORAMetrics issues).recoveryTime := by
  intro issues
  refine ⟨?_, ?_, ?_, ?_⟩
  · rw [leadTime_eq]
    apply specAvg1_nonneg
    intro x hx
    rcases List.mem_filterMap.mp hx with ⟨i, _, hfi⟩
    exact specLeadDays_nonneg i x hfi
  · rw [deploymentFrequency_eq]
    unfold deploymentFrequencySpec
    apply round1_nonneg
    positivity
  · rw [changeFailureRate_eq]
    unfold changeFailureRateSpec
    dsimp only
    split
    · apply round1_nonneg
      positivity
    · exact le_refl 0
  · rw [recoveryTime_eq]
    apply specAvg1_nonneg
    intro x hx
    rcases List.mem_filterMap.mp hx with ⟨b, _, hfb⟩
    exact specRecoveryHours_nonneg b x hfb

end MetricsDash
